import Mathlib

/-!
Verification of the ML-Email-Automation repository against its
natural-language specification.

The development shallowly embeds the Python sources:
  * `src/model_predictor.py` — the Classifier Port (`ModelPredictor`);
  * `src/automation_engine.py` — the Form Actor Port (`AutomationEngine`);
  * `src/email_handler.py` — the Email Source Port (`EmailHandler`);
  * `src/main.py` — the Orchestrator (`EmailAutomationSystem.process_emails`).

External collaborators (the Keras model and tokenizer, the Selenium
WebDriver, the Gmail API service) are embedded as oracle functions that
may either return a value or raise, modelled with `Except String`;
floating-point scores are embedded as rationals.  Each Python
`try/except` block is translated explicitly: an expression that can
raise has type `Except String α`, and a handler pattern-matches on the
`.error` case exactly where the Python handler sits.
-/

namespace MLEmail

/-- An email dictionary as built by `EmailHandler._parse_email`:
keys `id`, `subject`, `from` (here `sender`), `body`. -/
structure Email where
  id : String
  subject : String
  sender : String
  body : String
  deriving DecidableEq

/-! ## Classifier Port — `src/model_predictor.py` (`ModelPredictor`) -/

/-- State of a `ModelPredictor`.  `loaded` is true when `__init__`
succeeded in loading both the model and the tokenizer; on any load
error the constructor sets both to `None`, embedded as
`loaded = false`.  `tokenize` abstracts
`tokenizer.texts_to_sequences([text])` followed by `pad_sequences`
(it receives the already-lowercased text and may raise); `modelRaw`
abstracts `self.model.predict(processed, verbose=0)[0][0]`, the
model's raw score for the padded sequence (it may raise). -/
structure ModelPredictor where
  loaded : Bool
  tokenize : String → Except String (List Nat)
  modelRaw : List Nat → Except String ℚ

/-- `ModelPredictor.preprocess_text`: returns `None` when the
tokenizer is missing, otherwise lowercases the text and tokenizes.
The tokenization itself may raise, hence the nested `Except`. -/
def ModelPredictor.preprocess_text (p : ModelPredictor) (text : String) :
    Except String (Option (List Nat)) :=
  if p.loaded = false then .ok none
  else (p.tokenize text.toLower).map (fun s => some s)

/-- `ModelPredictor.predict`: returns `False` when the model or
tokenizer is not loaded, when preprocessing returns `None`, or when
any step raises (the Python body is wrapped in `try/except`); when
inference succeeds it returns `prediction[0][0] > 0.5`. -/
def ModelPredictor.predict (p : ModelPredictor) (email_text : String) : Bool :=
  if p.loaded = false then false
  else
    match p.preprocess_text email_text with
    | .error _ => false
    | .ok none => false
    | .ok (some processed) =>
      match p.modelRaw processed with
      | .error _ => false
      | .ok s => decide (s > mkRat 1 2)

/-- `ModelPredictor.get_confidence_score`: returns `0.0` when the
model or tokenizer is not loaded, when preprocessing returns `None`,
or when any step raises; otherwise returns
`float(prediction[0][0])` — the raw model score, unclamped. -/
def ModelPredictor.get_confidence_score (p : ModelPredictor) (email_text : String) : ℚ :=
  if p.loaded = false then 0
  else
    match p.preprocess_text email_text with
    | .error _ => 0
    | .ok none => 0
    | .ok (some processed) =>
      match p.modelRaw processed with
      | .error _ => 0
      | .ok s => s

/-- `ModelPredictor.predict_batch`: the list comprehension
`[self.predict(email) for email in email_list]`. -/
def ModelPredictor.predict_batch (p : ModelPredictor) (email_list : List String) :
    List Bool :=
  email_list.map (fun email => p.predict email)

/-! ## Form Actor Port — `src/automation_engine.py` (`AutomationEngine`) -/

/-- Characters matched by one repetition of the alternation in the URL
pattern of `AutomationEngine._extract_link`:
`(?:[a-zA-Z]|[0-9]|[$-_@.&+]|[!*\(\),]|(?:%[0-9a-fA-F][0-9a-fA-F]))`.
`[$-_@.&+]` is the character range 0x24–0x5F (which already contains
`@ . & + %` and the escaped punctuation except `!`), so the union is
letters, digits, the range `$`–`_`, and `!`; the two-hex-digit escape
alternative only consumes characters already in this set. -/
def urlChar (c : Char) : Bool :=
  ('a' ≤ c && c ≤ 'z') || ('A' ≤ c && c ≤ 'Z') || ('0' ≤ c && c ≤ '9') ||
  ('$' ≤ c && c ≤ '_') || (c == '!')

/-- Attempt to match the URL pattern `http[s]?://(...)+` at the head of
the character list, returning the matched characters.  The optional
`s` is tried greedily first, as the backtracking engine does; the `+`
consumes the maximal run of `urlChar`s and requires at least one. -/
def matchUrlAt (cs : List Char) : Option (List Char) :=
  match cs with
  | 'h' :: 't' :: 't' :: 'p' :: 's' :: ':' :: '/' :: '/' :: rest =>
    let run := rest.takeWhile urlChar
    if run = [] then none else some ("https://".data ++ run)
  | 'h' :: 't' :: 't' :: 'p' :: ':' :: '/' :: '/' :: rest =>
    let run := rest.takeWhile urlChar
    if run = [] then none else some ("http://".data ++ run)
  | _ => none

/-- Left-to-right scan for the first position where the URL pattern
matches: the first element of `re.findall(...)`, or `None`. -/
def extractLinkList : List Char → Option (List Char)
  | [] => none
  | c :: rest =>
    match matchUrlAt (c :: rest) with
    | some m => some m
    | none => extractLinkList rest

/-- State of an `AutomationEngine`.  `hasDriver` is false when
`_init_driver` failed and left `self.driver = None`; `navigate`
abstracts `self.driver.get(url)`, which may raise. -/
structure AutomationEngine where
  hasDriver : Bool
  navigate : String → Except String Unit

/-- `AutomationEngine._extract_link`: `urls[0] if urls else None` over
`re.findall` of the URL pattern (the method ignores `self`). -/
def AutomationEngine.extract_link (text : String) : Option String :=
  Option.map (fun l => String.mk l) (extractLinkList text.data)

/-- `AutomationEngine.participate_in_giveaway`: returns `False` when
the driver is missing, when no link is found in the body, or when
navigation raises (caught by the method's `try/except`); `_fill_form`
and `_submit_form` catch their own exceptions internally and so never
raise, and the method then returns `True`.  (A match of the URL
pattern is never the empty string, so the Python truthiness test
`if not giveaway_url` coincides with the `none` test.) -/
def AutomationEngine.participate_in_giveaway (eng : AutomationEngine)
    (email_data : Email) : Bool :=
  if eng.hasDriver = false then false
  else
    match AutomationEngine.extract_link email_data.body with
    | none => false
    | some giveaway_url =>
      match eng.navigate giveaway_url with
      | .error _ => false
      | .ok _ => true

/-! ## Email Source Port — `src/email_handler.py` (`EmailHandler`) -/

/-- Failures of a Gmail API call: `googleapiclient` raises `HttpError`
for API error responses, but a call may also raise other exceptions
(network timeouts, SSL failures, …), which `fetch_emails`' handler
`except HttpError` does not catch. -/
inductive GmailError where
  | httpError (msg : String)
  | otherError (msg : String)
  deriving DecidableEq

/-- One entry of `message['payload']['headers']`. -/
structure Header where
  name : String
  value : String
  deriving DecidableEq

/-- One entry of `payload['parts']`: its MIME type and
`part['body'].get('data', '')`. -/
structure MsgPart where
  mimeType : String
  data : String
  deriving DecidableEq

/-- `message['payload']`: headers, the optional `parts` list, and
`payload['body'].get('data', '')`. -/
structure Payload where
  headers : List Header
  parts : Option (List MsgPart)
  data : String
  deriving DecidableEq

/-- The full message returned by `messages().get(format='full')`. -/
structure RawMessage where
  payload : Payload
  deriving DecidableEq

/-- Oracle for the Gmail API service object: listing message ids for a
query with a result cap, fetching a full message by id, and the
`modify` call removing the `UNREAD` label.  Each may fail. -/
structure GmailService where
  listMessages : String → Nat → Except GmailError (List String)
  getMessage : String → Except GmailError RawMessage
  modifyRemoveUnread : String → Except GmailError Unit

/-- An `EmailHandler` after `__init__`: the authenticated service, and
an oracle for `base64.urlsafe_b64decode(data).decode('utf-8')`, which
may raise on malformed input. -/
structure EmailHandler where
  service : GmailService
  decodeB64 : String → Except String String

/-- The query string built by `fetch_emails`:
`f'label:{label}'` plus `' is:unread'` when `unread_only`. -/
def buildQuery (label : String) (unread_only : Bool) : String :=
  "label:" ++ label ++ (if unread_only then " is:unread" else "")

/-- First header with the given name, or the default — the
`next((h['value'] for h in headers if h['name'] == name), default)`
idiom of `_parse_email`. -/
def headerValue (headers : List Header) (name default : String) : String :=
  match headers.find? (fun h => h.name = name) with
  | some h => h.value
  | none => default

/-- The loop of `_get_email_body` over `payload['parts']`: the first
part with MIME type `text/plain` and non-empty data is decoded; if no
part qualifies the loop falls through to `return ''`. -/
def bodyFromParts (decodeB64 : String → Except String String) :
    List MsgPart → Except String String
  | [] => .ok ""
  | part :: rest =>
    if part.mimeType = "text/plain" ∧ part.data ≠ "" then decodeB64 part.data
    else bodyFromParts decodeB64 rest

/-- `EmailHandler._get_email_body`: use the parts when present,
otherwise the payload body data (empty data yields `''`). -/
def getEmailBody (decodeB64 : String → Except String String) (payload : Payload) :
    Except String String :=
  match payload.parts with
  | some parts => bodyFromParts decodeB64 parts
  | none => if payload.data ≠ "" then decodeB64 payload.data else .ok ""

/-- `EmailHandler._parse_email`: fetches the full message and builds
the email dictionary; its `except Exception` handler turns any
failure (of the API call or of body decoding) into `None`. -/
def EmailHandler.parse_email (handler : EmailHandler) (msg_id : String) :
    Option Email :=
  match handler.service.getMessage msg_id with
  | .error _ => none
  | .ok message =>
    match getEmailBody handler.decodeB64 message.payload with
    | .error _ => none
    | .ok body =>
      some { id := msg_id,
             subject := headerValue message.payload.headers "Subject" "No Subject",
             sender := headerValue message.payload.headers "From" "Unknown",
             body := body }

/-- `EmailHandler.fetch_emails`: lists message ids for the query and
parses each, skipping those whose parse returned `None`.  The
surrounding `try` is closed by `except HttpError: return []` — an
`HttpError` from the listing yields the empty list, but any other
exception raised by the service propagates to the caller.
(`_parse_email` never raises, so the loop body cannot fail.) -/
def EmailHandler.fetch_emails (handler : EmailHandler) (label : String)
    (unread_only : Bool) (max_results : Nat) : Except String (List Email) :=
  match handler.service.listMessages (buildQuery label unread_only) max_results with
  | .error (.httpError _) => .ok []
  | .error (.otherError msg) => .error msg
  | .ok messages => .ok (messages.filterMap (fun msg => handler.parse_email msg))

/-- `EmailHandler.mark_as_read`: issues the `modify` call removing the
`UNREAD` label; `except HttpError` returns `False`, other exceptions
propagate. -/
def EmailHandler.mark_as_read (handler : EmailHandler) (msg_id : String) :
    Except String Bool :=
  match handler.service.modifyRemoveUnread msg_id with
  | .ok _ => .ok true
  | .error (.httpError _) => .ok false
  | .error (.otherError msg) => .error msg

/-! ## Orchestrator — `src/main.py` (`EmailAutomationSystem.process_emails`)

The Orchestrator sees its three collaborators only through their port
operations, so a processing cycle is embedded as a function of a
`Collaborators` record of oracles.  Each oracle may raise
(`Except String`) — this is the generality the per-message `try/except`
in `process_emails` is written for.  Every port call made by the cycle
is recorded in a trace of `PortCall`s, so that frame properties
("`mark_as_read` is never invoked") are statable. -/

/-- The port operations available to the Orchestrator during a cycle. -/
inductive PortCall where
  | fetchCall
  | predictCall (text : String)
  | confidenceCall (text : String)
  | participateCall (id : String)
  | markAsReadCall (id : String)
  deriving DecidableEq

/-- Is this call the Email Source's read-state mutation? -/
def PortCall.isMarkAsRead : PortCall → Bool
  | .markAsReadCall _ => true
  | _ => false

/-- The collaborators of one `process_emails` cycle, as oracles:
`fetch` is the outcome of
`email_handler.fetch_emails(label='Giveaway', unread_only=True)`,
and `predict`, `confidence`, `participate` are the outcomes of the
corresponding port calls.  Any of them may raise. -/
structure Collaborators where
  fetch : Except String (List Email)
  predict : String → Except String Bool
  confidence : String → Except String ℚ
  participate : Email → Except String Bool

/-- `EmailAutomationSystem._extract_email_text`:
`f"{subject}\n{body}"`. -/
def extract_email_text (email : Email) : String :=
  email.subject ++ "\n" ++ email.body

/-- Outcome of processing one message inside the loop of
`process_emails`: the gate fired and `participate_in_giveaway` was
called without an exception escaping (`acted`); the gate did not fire
(`skipped`); or an exception was caught at the per-message boundary
(`failed`, carrying `str(e)`). -/
inductive MsgOutcome where
  | acted
  | skipped
  | failed (err : String)
  deriving DecidableEq

/-- Did a message fail at the per-message boundary? -/
def isFailed : MsgOutcome → Bool
  | .failed _ => true
  | _ => false

/-- Result of one iteration of the message loop: the port calls it
made, in order, and its outcome. -/
structure MsgResult where
  calls : List PortCall
  outcome : MsgOutcome
  deriving DecidableEq

/-- Was `participate` invoked for this message? -/
def MsgResult.participateCalled (r : MsgResult) : Bool :=
  r.calls.any (fun pc => pc matches PortCall.participateCall _)

/-- One iteration of the loop body of `process_emails` (the inner
`try/except`): build the text, call `predict` then
`get_confidence_score`, apply the gate `prediction and confidence >
0.85`, and call `participate_in_giveaway` when the gate fires; any
exception from these steps is caught here and yields `failed`. -/
def processOneEmail (c : Collaborators) (email : Email) : MsgResult :=
  let email_text := extract_email_text email
  match c.predict email_text with
  | .error e => { calls := [.predictCall email_text], outcome := .failed e }
  | .ok prediction =>
    match c.confidence email_text with
    | .error e =>
      { calls := [.predictCall email_text, .confidenceCall email_text],
        outcome := .failed e }
    | .ok confidence =>
      if prediction = true ∧ confidence > mkRat 17 20 then
        match c.participate email with
        | .error e =>
          { calls := [.predictCall email_text, .confidenceCall email_text,
                      .participateCall email.id],
            outcome := .failed e }
        | .ok _ =>
          { calls := [.predictCall email_text, .confidenceCall email_text,
                      .participateCall email.id],
            outcome := .acted }
      else
        { calls := [.predictCall email_text, .confidenceCall email_text],
          outcome := .skipped }

/-- The body of the outer `try` of `process_emails`: fetch the batch
(whose failure propagates out of the loop) and run the per-message
loop, which cannot itself raise past the inner handler. -/
def processEmailsBody (c : Collaborators) : Except String (List MsgResult) :=
  match c.fetch with
  | .error e => .error e
  | .ok emails => .ok (emails.map (fun email => processOneEmail c email))

/-- Result of a whole `process_emails` cycle: the per-message results
in fetch order, and the cycle-level error captured by the outer
`except Exception` handler, if any. -/
structure CycleResult where
  results : List MsgResult
  cycleError : Option String
  deriving DecidableEq

/-- `EmailAutomationSystem.process_emails`: the outer `try/except
Exception` — a failure of the body (only the fetch can produce one) is
logged and swallowed, so the cycle function is total. -/
def process_emails (c : Collaborators) : CycleResult :=
  match processEmailsBody c with
  | .ok results => { results := results, cycleError := none }
  | .error e => { results := [], cycleError := some e }

/-- All port calls of a cycle, in order: the fetch, then each
message's calls. -/
def cycleCalls (cr : CycleResult) : List PortCall :=
  PortCall.fetchCall :: (cr.results.map (fun r => r.calls)).flatten

/-- Number of messages of the cycle for which `participate` was
invoked. -/
def participateCount (cr : CycleResult) : Nat :=
  (cr.results.filter (fun r => r.participateCalled)).length

/-- Number of messages that failed at the per-message boundary. -/
def failedCount (cr : CycleResult) : Nat :=
  (cr.results.filter (fun r => isFailed r.outcome)).length

/-- The log line written by the per-message handler:
`logger.error(f"Error processing email: {str(e)}", exc_info=True)`. -/
def perMessageErrorLog (err : String) : String :=
  "Error processing email: " ++ err

/-- The error-level log lines a message contributes: one per caught
per-message exception. -/
def msgLogs (r : MsgResult) : List String :=
  match r.outcome with
  | .failed err => [perMessageErrorLog err]
  | _ => []

/-- The error-level log lines of a cycle's per-message handlers, in
message order. -/
def cycleErrorLogs (cr : CycleResult) : List String :=
  (cr.results.map msgLogs).flatten

/-- Effect of one port call on the mailbox's unread flags
(id ↦ unread?): only `mark_as_read` mutates read-state — it issues
`modify(removeLabelIds=['UNREAD'])` — while listing, fetching a
message, classifying, and form submission leave the flags untouched. -/
def applyCall (s : String → Bool) (pc : PortCall) : String → Bool :=
  match pc with
  | .markAsReadCall msg_id => fun j => if j = msg_id then false else s j
  | _ => s

/-- Effect of a trace of port calls on the mailbox's unread flags. -/
def applyTrace (s : String → Bool) (calls : List PortCall) : String → Bool :=
  calls.foldl applyCall s

/-! ## String containment (used to state "logged with the message identifier") -/

/-- Does `needle` occur at the head of `haystack`? -/
def leadsWith : List Char → List Char → Bool
  | [], _ => true
  | _ :: _, [] => false
  | a :: as, b :: bs => (a == b) && leadsWith as bs

/-- Does `needle` occur as a contiguous subsequence of `haystack`? -/
def containsSeq (needle : List Char) : List Char → Bool
  | [] => leadsWith needle []
  | b :: rest => leadsWith needle (b :: rest) || containsSeq needle rest

/-! ## Concrete instances used by witnesses and counterexamples -/

/-- A predictor whose construction failed: model and tokenizer are `None`. -/
def unloadedPredictor : ModelPredictor :=
  { loaded := false,
    tokenize := fun _ => .error "tokenizer missing",
    modelRaw := fun _ => .error "model missing" }

/-- A loaded predictor whose model answers exactly 0.5 on every input. -/
def halfPredictor : ModelPredictor :=
  { loaded := true,
    tokenize := fun _ => .ok [1, 2],
    modelRaw := fun _ => .ok (mkRat 1 2) }

/-- A loaded predictor whose model emits a raw score of 2 — outside [0, 1]. -/
def overconfidentPredictor : ModelPredictor :=
  { loaded := true,
    tokenize := fun _ => .ok [3],
    modelRaw := fun _ => .ok 2 }

/-- A loaded predictor whose model emits raw scores inside [0, 1]. -/
def calibratedPredictor : ModelPredictor :=
  { loaded := true,
    tokenize := fun _ => .ok [3],
    modelRaw := fun _ => .ok (mkRat 3 4) }

/-- An engine whose WebDriver failed to initialize. -/
def deadEngine : AutomationEngine :=
  { hasDriver := false, navigate := fun _ => .error "driver is None" }

/-- The example body from the specification. -/
def demoBody : String :=
  "Visit http://example.com/win now and also https://other.com/x"

/-- A handler whose mail service raises a non-`HttpError` exception on
listing. -/
def flakyHandler : EmailHandler :=
  { service :=
      { listMessages := fun _ _ => .error (.otherError "socket timeout"),
        getMessage := fun _ => .error (.httpError "404"),
        modifyRemoveUnread := fun _ => .ok () },
    decodeB64 := fun s => .ok s }

/-- A handler whose mail service raises `HttpError` on listing. -/
def deniedHandler : EmailHandler :=
  { service :=
      { listMessages := fun _ _ => .error (.httpError "500 backend error"),
        getMessage := fun _ => .error (.httpError "500 backend error"),
        modifyRemoveUnread := fun _ => .ok () },
    decodeB64 := fun s => .ok s }

/-- A concrete fetched message. -/
def w1email : Email :=
  { id := "m-1", subject := "Win a prize", sender := "promo@example.com",
    body := "Visit http://example.com/win now" }

/-- A cycle whose classifier answers `true` at confidence 0.9. -/
def w1collab : Collaborators :=
  { fetch := .ok [w1email],
    predict := fun _ => .ok true,
    confidence := fun _ => .ok (mkRat 9 10),
    participate := fun _ => .ok true }

/-- A cycle whose classifier answers `true` at confidence exactly 0.85. -/
def w1bcollab : Collaborators :=
  { fetch := .ok [w1email],
    predict := fun _ => .ok true,
    confidence := fun _ => .ok (mkRat 17 20),
    participate := fun _ => .ok true }

/-- A message whose processing will raise. -/
def c2email : Email :=
  { id := "msg-42", subject := "s", sender := "x@y.example", body := "b" }

/-- A cycle whose classifier raises on its only message. -/
def c2collab : Collaborators :=
  { fetch := .ok [c2email],
    predict := fun _ => .error "boom",
    confidence := fun _ => .ok 0,
    participate := fun _ => .ok true }

/-- Three fetched messages; the middle one will raise. -/
def w2a : Email :=
  { id := "id-a", subject := "sa", sender := "fa@example.com", body := "ba" }

/-- Second of the three messages. -/
def w2b : Email :=
  { id := "id-b", subject := "sb", sender := "fb@example.com", body := "bb" }

/-- Third of the three messages. -/
def w2c : Email :=
  { id := "id-c", subject := "sc", sender := "fc@example.com", body := "bc" }

/-- A cycle over three messages whose classifier raises exactly on the
middle one. -/
def w2collab : Collaborators :=
  { fetch := .ok [w2a, w2b, w2c],
    predict := fun t => if t = extract_email_text w2b then .error "boom" else .ok false,
    confidence := fun _ => .ok 0,
    participate := fun _ => .ok true }

/-- A cycle whose fetch itself raises. -/
def w3collab : Collaborators :=
  { fetch := .error "connection reset",
    predict := fun _ => .ok true,
    confidence := fun _ => .ok 1,
    participate := fun _ => .ok true }

/-! ## Theorems -/

/-- C4: when a port's backing resource is unavailable — the model or
tokenizer failed to load, or the WebDriver failed to initialize — each
port operation returns its inert value and never raises: `predict`
returns `false`, `get_confidence_score` returns `0.0`, and
`participate_in_giveaway` returns `false`, for every input. -/
theorem ports_fail_closed (p : ModelPredictor) (eng : AutomationEngine)
    (hp : p.loaded = false) (hd : eng.hasDriver = false) :
    (∀ text, p.predict text = false) ∧
    (∀ text, p.get_confidence_score text = 0) ∧
    (∀ email, eng.participate_in_giveaway email = false) := by
  refine ⟨fun text => ?_, fun text => ?_, fun email => ?_⟩
  · simp [ModelPredictor.predict, hp]
  · simp [ModelPredictor.get_confidence_score, hp]
  · simp [AutomationEngine.participate_in_giveaway, hd]

/-- Witness for `ports_fail_closed` at concrete inert ports. -/
theorem ports_fail_closed_witness :
    unloadedPredictor.predict "free prize inside" = false ∧
    unloadedPredictor.get_confidence_score "" = 0 ∧
    deadEngine.participate_in_giveaway w1email = false := by
  obtain ⟨h1, h2, h3⟩ := ports_fail_closed unloadedPredictor deadEngine rfl rfl
  exact ⟨h1 _, h2 _, h3 _⟩

/-- C10: when the model and tokenizer are loaded and inference
succeeds, `predict` returns `true` iff the model's raw output score is
strictly greater than 0.5; at a raw score of exactly 0.5 it returns
`false`. -/
theorem predict_strict_threshold (p : ModelPredictor) (text : String)
    (seq : List Nat) (s : ℚ) (hl : p.loaded = true)
    (ht : p.tokenize text.toLower = .ok seq) (hm : p.modelRaw seq = .ok s) :
    p.predict text = decide (s > mkRat 1 2) ∧ (s = mkRat 1 2 → p.predict text = false) := by
  have hpre : p.preprocess_text text = .ok (some seq) := by
    simp [ModelPredictor.preprocess_text, hl, ht, Except.map]
  have h1 : p.predict text = decide (s > mkRat 1 2) := by
    simp [ModelPredictor.predict, hl, hpre, hm]
  refine ⟨h1, fun hs => ?_⟩
  rw [h1, hs]
  decide

/-- Witness for `predict_strict_threshold`: a raw score of exactly 0.5
yields `false`. -/
theorem predict_strict_threshold_witness :
    halfPredictor.predict "Win a prize" = false := by
  have h := predict_strict_threshold halfPredictor "Win a prize" [1, 2] (mkRat 1 2) rfl rfl rfl
  exact h.2 rfl

/-- C8 counterexample: `get_confidence_score` returns the model's raw
output unclamped, so a model emitting a raw score of 2 makes the
confidence 2, outside [0, 1]. -/
theorem confidence_unclamped_cex :
    overconfidentPredictor.get_confidence_score "free prize" = 2 ∧
    ¬ overconfidentPredictor.get_confidence_score "free prize" ≤ 1 := by
  constructor
  · rfl
  · decide

/-- C8 amended: whenever every raw score the model can emit lies in
[0, 1], `get_confidence_score` returns a value in [0, 1] (the
unavailability and error paths return 0). -/
theorem confidence_in_range_of_model_bounded (p : ModelPredictor) (text : String)
    (hm : ∀ seq s, p.modelRaw seq = .ok s → 0 ≤ s ∧ s ≤ 1) :
    0 ≤ p.get_confidence_score text ∧ p.get_confidence_score text ≤ 1 := by
  cases hload : p.loaded with
  | false =>
    simp [ModelPredictor.get_confidence_score, hload]
  | true =>
    rcases hpre : p.preprocess_text text with e | o
    · simp [ModelPredictor.get_confidence_score, hload, hpre]
    · rcases o with _ | processed
      · simp [ModelPredictor.get_confidence_score, hload, hpre]
      · rcases hraw : p.modelRaw processed with e | s
        · simp [ModelPredictor.get_confidence_score, hload, hpre, hraw]
        · have := hm processed s hraw
          simpa [ModelPredictor.get_confidence_score, hload, hpre, hraw] using this

/-- Witness for `confidence_in_range_of_model_bounded` at a concrete
well-behaved model. -/
theorem confidence_in_range_witness :
    0 ≤ calibratedPredictor.get_confidence_score "hello" ∧
    calibratedPredictor.get_confidence_score "hello" ≤ 1 := by
  refine confidence_in_range_of_model_bounded calibratedPredictor "hello" ?_
  intro seq s hs
  have hs2 : Except.ok (ε := String) (mkRat 3 4) = .ok s := hs
  injection hs2 with hs3
  rw [← hs3]
  constructor <;> decide

/-- C6: `predict_batch` equals the element-wise map of `predict` over
the input texts, preserving order and length. -/
theorem predict_batch_elementwise (p : ModelPredictor) (texts : List String) :
    p.predict_batch texts = texts.map (fun t => p.predict t) ∧
    (p.predict_batch texts).length = texts.length ∧
    ∀ i : Nat, (p.predict_batch texts)[i]? = Option.map (fun t => p.predict t) texts[i]? := by
  refine ⟨rfl, ?_, fun i => ?_⟩
  · simp [ModelPredictor.predict_batch]
  · simp [ModelPredictor.predict_batch]

/-- Witness for `predict_batch_elementwise` at a concrete batch. -/
theorem predict_batch_elementwise_witness :
    halfPredictor.predict_batch ["a", "b"] =
      [halfPredictor.predict "a", halfPredictor.predict "b"] := by
  have h := (predict_batch_elementwise halfPredictor ["a", "b"]).1
  simpa using h

/-- C5 counterexample: a non-`HttpError` exception raised by the mail
service during listing propagates out of `fetch_emails` — the handler
catches only `HttpError` — so a retrieval failure can raise to the
Orchestrator. -/
theorem fetch_emails_raise_cex :
    flakyHandler.fetch_emails "Giveaway" true 10 = .error "socket timeout" := rfl

/-- C5 amended: on an `HttpError` from the mail service's listing
call, `fetch_emails` returns the empty list without raising (messages
whose retrieval or parsing fails are skipped individually; only a
non-`HttpError` exception from the service propagates). -/
theorem fetch_emails_http_error_empty (handler : EmailHandler) (label : String)
    (unread_only : Bool) (max_results : Nat) (msg : String)
    (hl : handler.service.listMessages (buildQuery label unread_only) max_results
      = .error (.httpError msg)) :
    handler.fetch_emails label unread_only max_results = .ok [] := by
  simp [EmailHandler.fetch_emails, hl]

/-- Witness for `fetch_emails_http_error_empty` at a concrete failing
service. -/
theorem fetch_emails_http_error_empty_witness :
    deniedHandler.fetch_emails "Giveaway" true 10 = .ok [] :=
  fetch_emails_http_error_empty deniedHandler "Giveaway" true 10 "500 backend error" rfl

/-- Helper: if the URL pattern matches at no position, the scan
returns `none`. -/
theorem extractLinkList_eq_none (cs : List Char)
    (h : ∀ i, matchUrlAt (cs.drop i) = none) : extractLinkList cs = none := by
  induction cs with
  | nil => rfl
  | cons c rest ih =>
    have h0 : matchUrlAt (c :: rest) = none := by simpa using h 0
    simp only [extractLinkList, h0]
    exact ih (fun i => by simpa using h (i + 1))

/-- Helper: a returned link is the match at the first matching
position — every earlier position has no match. -/
theorem extractLinkList_firstMatch (cs : List Char) (u : List Char)
    (h : extractLinkList cs = some u) :
    ∃ i, matchUrlAt (cs.drop i) = some u ∧
      ∀ j, j < i → matchUrlAt (cs.drop j) = none := by
  induction cs with
  | nil => exact absurd h (by simp [extractLinkList])
  | cons c rest ih =>
    rcases hm : matchUrlAt (c :: rest) with _ | m
    · rw [extractLinkList, hm] at h
      obtain ⟨i, hi, hlt⟩ := ih h
      refine ⟨i + 1, by simpa using hi, ?_⟩
      intro j hj
      cases j with
      | zero => simpa using hm
      | succ k => simpa using hlt k (Nat.lt_of_succ_lt_succ hj)
    · rw [extractLinkList, hm] at h
      injection h with h2
      subst h2
      exact ⟨0, by simpa using hm, fun j hj => absurd hj (Nat.not_lt_zero j)⟩

/-- C7: `_extract_link` returns the first URL-shaped substring of the
body (first match wins), and `none` when no position of the body
matches the URL pattern; on the specification's example body it
returns `http://example.com/win`, not the later
`https://other.com/x`. -/
theorem extract_link_first_match :
    AutomationEngine.extract_link demoBody = some "http://example.com/win" ∧
    (∀ text : String, (∀ i, matchUrlAt (text.data.drop i) = none) →
      AutomationEngine.extract_link text = none) ∧
    (∀ text : String, ∀ u : String, AutomationEngine.extract_link text = some u →
      ∃ i, matchUrlAt (text.data.drop i) = some u.data ∧
        ∀ j, j < i → matchUrlAt (text.data.drop j) = none) := by
  refine ⟨by decide, fun text h => ?_, fun text u h => ?_⟩
  · simp [AutomationEngine.extract_link, extractLinkList_eq_none text.data h]
  · unfold AutomationEngine.extract_link at h
    obtain ⟨l, hl, hfl⟩ := Option.map_eq_some'.mp h
    obtain ⟨i, hi, hlt⟩ := extractLinkList_firstMatch text.data l hl
    refine ⟨i, ?_, hlt⟩
    rw [← hfl]
    exact hi

/-- C1: in a `process_emails` cycle, for a fetched message whose
classification calls succeed with label `l` and confidence `conf`, the
Form Actor action is invoked iff `l = true` and `conf > 0.85`
(strictly); a confidence of exactly 0.85 never triggers it. -/
theorem gate_rule_iff (c : Collaborators) (emails : List Email)
    (hf : c.fetch = .ok emails) (email : Email) (hmem : email ∈ emails)
    (l : Bool) (conf : ℚ)
    (hp : c.predict (extract_email_text email) = .ok l)
    (hc : c.confidence (extract_email_text email) = .ok conf) :
    processOneEmail c email ∈ (process_emails c).results ∧
    ((processOneEmail c email).participateCalled = true ↔
      (l = true ∧ conf > mkRat 17 20)) ∧
    (conf = mkRat 17 20 → (processOneEmail c email).participateCalled = false) := by
  have hres : (process_emails c).results = emails.map (fun e => processOneEmail c e) := by
    simp [process_emails, processEmailsBody, hf]
  have hiff : (processOneEmail c email).participateCalled = true ↔
      (l = true ∧ conf > mkRat 17 20) := by
    simp only [processOneEmail, hp, hc]
    by_cases hg : l = true ∧ conf > mkRat 17 20
    · rw [if_pos hg]
      rcases hpart : c.participate email with e | b <;>
        simp [hpart, MsgResult.participateCalled, hg]
    · rw [if_neg hg]
      simp [MsgResult.participateCalled, hg]
  refine ⟨by rw [hres]; exact List.mem_map_of_mem _ hmem, hiff, fun h85 => ?_⟩
  cases hcall : (processOneEmail c email).participateCalled
  · rfl
  · have := hiff.mp hcall
    rw [h85] at this
    exact absurd this.2 (lt_irrefl _)

/-- Witness for `gate_rule_iff`: confidence 0.9 fires the action,
confidence exactly 0.85 does not. -/
theorem gate_rule_iff_witness :
    (processOneEmail w1collab w1email).participateCalled = true ∧
    (processOneEmail w1bcollab w1email).participateCalled = false := by
  constructor
  · exact (gate_rule_iff w1collab [w1email] rfl w1email (by simp) true (mkRat 9 10)
      rfl rfl).2.1.mpr ⟨rfl, by decide⟩
  · exact (gate_rule_iff w1bcollab [w1email] rfl w1email (by simp) true (mkRat 17 20)
      rfl rfl).2.2 rfl

/-- C3: the outer handler of `process_emails` intercepts every failure
of the cycle body — whose only failure source is the fetch — so no
exception escapes a cycle; when the fetch fails, the failure is
recorded at cycle level and the cycle performs no port call beyond the
fetch, in particular zero `participate` actions. -/
theorem cycle_error_contained (c : Collaborators) :
    (∀ e, processEmailsBody c = .error e →
      c.fetch = .error e ∧
      process_emails c = { results := [], cycleError := some e }) ∧
    (∀ msg, c.fetch = .error msg →
      process_emails c = { results := [], cycleError := some msg } ∧
      participateCount (process_emails c) = 0 ∧
      cycleCalls (process_emails c) = [PortCall.fetchCall]) := by
  rcases hf : c.fetch with e | emails
  · have hbody : processEmailsBody c = .error e := by
      simp [processEmailsBody, hf]
    have hcycle : process_emails c = { results := [], cycleError := some e } := by
      simp [process_emails, hbody]
    constructor
    · intro e2 hb2
      rw [hbody] at hb2
      injection hb2 with he
      subst he
      exact ⟨rfl, hcycle⟩
    · intro msg hmsg
      injection hmsg with he
      subst he
      exact ⟨hcycle, by simp [participateCount, hcycle],
        by simp [cycleCalls, hcycle]⟩
  · have hbody : processEmailsBody c = .ok (emails.map (fun e => processOneEmail c e)) := by
      simp [processEmailsBody, hf]
    constructor
    · intro e2 hb2
      rw [hbody] at hb2
      cases hb2
    · intro msg hmsg
      cases hmsg

/-- Witness for `cycle_error_contained`: a failing fetch yields a
logged cycle error and zero participate actions. -/
theorem cycle_error_contained_witness :
    process_emails w3collab = { results := [], cycleError := some "connection reset" } ∧
    participateCount (process_emails w3collab) = 0 :=
  ⟨((cycle_error_contained w3collab).2 "connection reset" rfl).1,
   ((cycle_error_contained w3collab).2 "connection reset" rfl).2.1⟩

/-- Helper: the calls made for one message are classification and
participation calls only. -/
theorem processOneEmail_no_mark (c : Collaborators) (email : Email) :
    ∀ pc ∈ (processOneEmail c email).calls, pc.isMarkAsRead = false := by
  intro pc hpc
  simp only [processOneEmail] at hpc
  rcases hp2 : c.predict (extract_email_text email) with e | prediction <;>
      simp only [hp2] at hpc
  · simp at hpc
    subst hpc
    rfl
  · rcases hc2 : c.confidence (extract_email_text email) with e | conf <;>
        simp only [hc2] at hpc
    · simp at hpc
      rcases hpc with rfl | rfl <;> rfl
    · by_cases hg : prediction = true ∧ conf > mkRat 17 20
      · rw [if_pos hg] at hpc
        rcases hp3 : c.participate email with e | b <;> simp only [hp3] at hpc <;>
          · simp at hpc
            rcases hpc with rfl | rfl | rfl <;> rfl
      · rw [if_neg hg] at hpc
        simp at hpc
        rcases hpc with rfl | rfl <;> rfl

/-- Helper: no call of a cycle is a `mark_as_read`. -/
theorem cycle_no_mark (c : Collaborators) :
    ∀ pc ∈ cycleCalls (process_emails c), pc.isMarkAsRead = false := by
  intro pc hpc
  unfold cycleCalls at hpc
  rcases List.mem_cons.mp hpc with rfl | hmem
  · rfl
  · obtain ⟨l, hl, hpl⟩ := List.mem_flatten.mp hmem
    obtain ⟨r, hr, rfl⟩ := List.mem_map.mp hl
    unfold process_emails at hr
    rcases hb : processEmailsBody c with e | results <;> simp only [hb] at hr
    · simp at hr
    · unfold processEmailsBody at hb
      rcases hf : c.fetch with e | emails <;> rw [hf] at hb
      · cases hb
      · injection hb with hb2
        subst hb2
        obtain ⟨email, hemail, rfl⟩ := List.mem_map.mp hr
        exact processOneEmail_no_mark c email pc hpl

/-- Helper: a trace without `mark_as_read` calls leaves every unread
flag unchanged. -/
theorem applyTrace_id (s : String → Bool) (calls : List PortCall)
    (h : ∀ pc ∈ calls, pc.isMarkAsRead = false) : applyTrace s calls = s := by
  induction calls generalizing s with
  | nil => rfl
  | cons pc rest ih =>
    have hs : applyCall s pc = s := by
      cases pc with
      | markAsReadCall i =>
        have := h (PortCall.markAsReadCall i) (List.mem_cons_self _ _)
        simp [PortCall.isMarkAsRead] at this
      | fetchCall => rfl
      | predictCall t => rfl
      | confidenceCall t => rfl
      | participateCall i => rfl
    unfold applyTrace
    rw [List.foldl_cons, hs]
    exact ih s (fun pc2 h2 => h pc2 (List.mem_cons_of_mem pc h2))

/-- C9: a `process_emails` cycle never invokes `mark_as_read` — no
call in its port-call trace is a read-state mutation — and therefore
the mailbox's unread flags after the cycle's trace equal the flags
before it: every fetched message remains unread and will be fetched,
re-classified, and (if it qualifies) re-acted-upon by later cycles. -/
theorem no_mark_as_read_in_cycle (c : Collaborators) :
    (∀ msg_id, PortCall.markAsReadCall msg_id ∉ cycleCalls (process_emails c)) ∧
    (∀ readState : String → Bool,
      applyTrace readState (cycleCalls (process_emails c)) = readState) := by
  have hno := cycle_no_mark c
  constructor
  · intro msg_id hmem
    have := hno _ hmem
    simp [PortCall.isMarkAsRead] at this
  · intro readState
    exact applyTrace_id readState _ hno

/-- Witness for `no_mark_as_read_in_cycle` at a concrete cycle. -/
theorem no_mark_as_read_in_cycle_witness :
    PortCall.markAsReadCall "m-1" ∉ cycleCalls (process_emails w1collab) ∧
    applyTrace (fun _ => true) (cycleCalls (process_emails w1collab)) = (fun _ => true) :=
  ⟨(no_mark_as_read_in_cycle w1collab).1 "m-1",
   (no_mark_as_read_in_cycle w1collab).2 (fun _ => true)⟩

/-- Helper: a list whose predicate holds at exactly one index has a
filter of length one. -/
theorem filter_length_one_of {α : Type} (l : List α) (p : α → Bool) (i : Nat)
    (hi : i < l.length) (h1 : p l[i] = true)
    (h2 : ∀ j, (hj : j < l.length) → j ≠ i → p l[j] = false) :
    (l.filter p).length = 1 := by
  induction l generalizing i with
  | nil => exact absurd hi (Nat.not_lt_zero i)
  | cons a t ih =>
    cases i with
    | zero =>
      have ha : p a = true := h1
      have ht : t.filter p = [] := by
        rw [List.filter_eq_nil_iff]
        intro x hx
        obtain ⟨j, hj, rfl⟩ := List.getElem_of_mem hx
        have := h2 (j + 1) (Nat.succ_lt_succ hj) (Nat.succ_ne_zero j)
        simpa using this
      rw [List.filter_cons_of_pos ha, ht]
      rfl
    | succ k =>
      have ha : p a = false := by
        have := h2 0 (Nat.succ_pos _) (Nat.succ_ne_zero k).symm
        simpa using this
      rw [List.filter_cons_of_neg (by simp [ha])]
      have hk : k < t.length := Nat.lt_of_succ_lt_succ hi
      refine ih k hk (by simpa using h1) ?_
      intro j hj hjk
      have := h2 (j + 1) (Nat.succ_lt_succ hj) (fun hc => hjk (Nat.succ_injective hc))
      simpa using this

/-- Helper: flattening a map that is a singleton at exactly one index
and empty elsewhere yields that singleton. -/
theorem map_flatten_single {α β : Type} (l : List α) (f : α → List β) (i : Nat)
    (hi : i < l.length) (x : β) (h1 : f l[i] = [x])
    (h2 : ∀ j, (hj : j < l.length) → j ≠ i → f l[j] = []) :
    (l.map f).flatten = [x] := by
  induction l generalizing i with
  | nil => exact absurd hi (Nat.not_lt_zero i)
  | cons a t ih =>
    cases i with
    | zero =>
      have ha : f a = [x] := h1
      have ht : (t.map f).flatten = [] := by
        rw [List.flatten_eq_nil_iff]
        intro l2 hl2
        obtain ⟨y, hy, rfl⟩ := List.mem_map.mp hl2
        obtain ⟨j, hj, rfl⟩ := List.getElem_of_mem hy
        have := h2 (j + 1) (Nat.succ_lt_succ hj) (Nat.succ_ne_zero j)
        simpa using this
      rw [List.map_cons, List.flatten_cons, ha, ht]
      rfl
    | succ k =>
      have ha : f a = [] := by
        have := h2 0 (Nat.succ_pos _) (Nat.succ_ne_zero k).symm
        simpa using this
      rw [List.map_cons, List.flatten_cons, ha, List.nil_append]
      have hk : k < t.length := Nat.lt_of_succ_lt_succ hi
      refine ih k hk (by simpa using h1) ?_
      intro j hj hjk
      have := h2 (j + 1) (Nat.succ_lt_succ hj) (fun hc => hjk (Nat.succ_injective hc))
      simpa using this

/-- Helper: a non-failed message contributes no error log line. -/
theorem msgLogs_eq_nil (r : MsgResult) (h : isFailed r.outcome = false) :
    msgLogs r = [] := by
  cases hout : r.outcome with
  | acted => simp [msgLogs, hout]
  | skipped => simp [msgLogs, hout]
  | failed e =>
    rw [hout] at h
    simp [isFailed] at h

/-- C2 counterexample: in a cycle whose only message (id `msg-42`)
raises `boom`, the per-message handler's log line is
`Error processing email: boom` — it does not contain the message
identifier, contradicting "logged with the message identifier" (the
exception is still caught and counted as the one failure). -/
theorem per_message_log_cex :
    failedCount (process_emails c2collab) = 1 ∧
    cycleErrorLogs (process_emails c2collab) = ["Error processing email: boom"] ∧
    c2email.id = "msg-42" ∧
    containsSeq c2email.id.data ("Error processing email: boom".data) = false := by
  refine ⟨by decide, by decide, rfl, by decide⟩

/-- C2 amended: if message `i` of a fetched batch raises and every
other message does not, the exception is caught at the per-message
boundary and logged (the log line carries the exception text only,
not the message identifier), every message of the batch is still
processed in order, and exactly one message counts as failed. -/
theorem per_message_isolation (c : Collaborators) (emails : List Email)
    (hf : c.fetch = .ok emails) (i : Nat) (hi : i < emails.length) (err : String)
    (hfail : (processOneEmail c emails[i]).outcome = .failed err)
    (hrest : ∀ j, (hj : j < emails.length) → j ≠ i →
      isFailed (processOneEmail c emails[j]).outcome = false) :
    (process_emails c).results = emails.map (fun e => processOneEmail c e) ∧
    (process_emails c).results.length = emails.length ∧
    failedCount (process_emails c) = 1 ∧
    cycleErrorLogs (process_emails c) = [perMessageErrorLog err] := by
  have hres : (process_emails c).results = emails.map (fun e => processOneEmail c e) := by
    simp [process_emails, processEmailsBody, hf]
  refine ⟨hres, by rw [hres]; simp, ?_, ?_⟩
  · unfold failedCount
    rw [hres]
    refine filter_length_one_of _ _ i (by simpa using hi) ?_ ?_
    · rw [List.getElem_map]
      simp [hfail, isFailed]
    · intro j hj hji
      rw [List.getElem_map]
      exact hrest j (by simpa using hj) hji
  · unfold cycleErrorLogs
    rw [hres, List.map_map]
    refine map_flatten_single _ _ i (by simpa using hi) _ ?_ ?_
    · simp [Function.comp, msgLogs, hfail]
    · intro j hj hji
      have hnf := hrest j (by simpa using hj) hji
      simpa [Function.comp] using msgLogs_eq_nil _ hnf

/-- Witness for `per_message_isolation`: the middle message of a
three-message batch raises; all three are processed and exactly one
fails. -/
theorem per_message_isolation_witness :
    failedCount (process_emails w2collab) = 1 ∧
    cycleErrorLogs (process_emails w2collab) = [perMessageErrorLog "boom"] ∧
    (process_emails w2collab).results.length = 3 := by
  have h := per_message_isolation w2collab [w2a, w2b, w2c] rfl 1 (by decide) "boom"
    (by decide) (by decide)
  exact ⟨h.2.2.1, h.2.2.2, by rw [h.2.1]; rfl⟩

end MLEmail
